import Mathlib

/-!
Verification development for the MAD (Multi-Agent Dev) plugin
(`src/plugins/mad-plugin.ts`).

The plugin exposes tools that operate on "worktrees" (isolated workspaces)
whose task state is encoded by the presence of sentinel files
(`.agent-done`, `.agent-blocked`, `.agent-error`).  We embed the
state-relevant behaviour of those tools as pure Lean functions:

* filesystem sentinel presence becomes a record of three booleans;
* the `execute` body of each tool becomes a function of its inputs together
  with the outcomes of the external commands it runs (`runCommand`
  results are structured, never exceptions);
* exception propagation in the TypeScript source is modelled with
  `Except`: a thrown exception is `Except.error`, a returned message is
  `Except.ok`.
-/

namespace MAD

/--
Result of `runCommand` (mad-plugin.ts lines 30-45): `execSync` failures are
caught and returned as a structured record `{success, output, error}`;
`runCommand` itself never throws.
-/
structure CmdResult where
  success : Bool
  output : String
  error : String
deriving DecidableEq, Repr

/-- The `result.error || "Unknown error"` fallback used at several call
sites (e.g. mad-plugin.ts lines 368, 447). -/
def errOr (r : CmdResult) : String :=
  if r.error = "" then "Unknown error" else r.error

/--
Presence of the three task-state sentinel files in one worktree directory:
`.agent-done`, `.agent-blocked`, `.agent-error`.  The file contents are
advisory; only presence drives the state machine.
-/
structure Sentinels where
  done : Bool
  blocked : Bool
  errored : Bool
deriving DecidableEq, Repr

/-- A freshly created worktree has no sentinel files. -/
def Sentinels.init : Sentinels := ⟨false, false, false⟩

/--
Effect of `mad_done` on sentinel files once the worktree-existence check
passed (mad-plugin.ts lines 507-509): writes `.agent-done` and runs
`rm -f` on `.agent-error` and `.agent-blocked`.
-/
def markDone (_s : Sentinels) : Sentinels := ⟨true, false, false⟩

/--
Effect of `mad_blocked` on sentinel files once the worktree-existence check
passed (mad-plugin.ts line 533): writes `.agent-blocked` only; no other
sentinel is touched.
-/
def markBlocked (s : Sentinels) : Sentinels := { s with blocked := true }

/--
Effect of `mad_test` on sentinel files once the worktree-existence check
passed (mad-plugin.ts lines 402-413), as a function of whether any check
failed (`hasError`): on failure it writes `.agent-error` and unlinks
`.agent-done` when present; on success it writes and removes nothing.
-/
def testSentinels (hasError : Bool) (s : Sentinels) : Sentinels :=
  if hasError then { s with errored := true, done := false } else s

/-- Tool `mad_done` including the worktree-existence guard
(mad-plugin.ts lines 503-505): a missing worktree leaves state unchanged. -/
def madDone (wexists : Bool) (s : Sentinels) : Sentinels :=
  if wexists then markDone s else s

/-- Tool `mad_blocked` including the worktree-existence guard
(mad-plugin.ts lines 529-531). -/
def madBlocked (wexists : Bool) (s : Sentinels) : Sentinels :=
  if wexists then markBlocked s else s

/-- Tool `mad_test` including the worktree-existence guard
(mad-plugin.ts lines 352-354). -/
def madTest (wexists hasError : Bool) (s : Sentinels) : Sentinels :=
  if wexists then testSentinels hasError s else s

/-- The sentinel-writing operations available on an existing worktree:
`mad_done`, `mad_blocked`, and `mad_test` (parametrised by whether some
check failed). -/
inductive SentinelOp
  | done
  | blocked
  | test (hasError : Bool)
deriving DecidableEq, Repr

/-- One step of the sentinel state machine. -/
def SentinelOp.apply : SentinelOp → Sentinels → Sentinels
  | .done, s => markDone s
  | .blocked, s => markBlocked s
  | .test hasError, s => testSentinels hasError s

/-- Run a sequence of sentinel-writing operations on a worktree. -/
def runOps (ops : List SentinelOp) (s : Sentinels) : Sentinels :=
  ops.foldl (fun st op => op.apply st) s

/-- At most one of the done/blocked/errored sentinels is present. -/
def atMostOneSentinel (s : Sentinels) : Bool :=
  !(s.done && s.blocked) && !(s.done && s.errored) && !(s.blocked && s.errored)

/-- Status bucket assigned to a worktree by `mad_status`. -/
inductive WStatus
  | done
  | blocked
  | errored
  | inProgress
deriving DecidableEq, Repr

/--
Classification of a single worktree directory by `mad_status`
(mad-plugin.ts lines 289-306): `.agent-done` is tested first, then
`.agent-blocked`, then `.agent-error`, otherwise the worktree counts as
in progress.
-/
def classify (s : Sentinels) : WStatus :=
  if s.done then .done
  else if s.blocked then .blocked
  else if s.errored then .errored
  else .inProgress

/-- Helper for `includes`: whether the second list is an initial segment of
the first. -/
def startsWithChars : List Char → List Char → Bool
  | _, [] => true
  | [], _ :: _ => false
  | c :: cs, d :: ds => c = d && startsWithChars cs ds

/-- Helper for `includes`: whether the second list occurs as a contiguous
run inside the first. -/
def containsChars : List Char → List Char → Bool
  | [], needle => startsWithChars [] needle
  | c :: t, needle => startsWithChars (c :: t) needle || containsChars t needle

/-- JavaScript `haystack.includes(needle)` on strings, used by `mad_merge`
to detect merge conflicts in the git error text (mad-plugin.ts line 448). -/
def includes (haystack needle : String) : Bool :=
  containsChars haystack.data needle.data

/-- The version-control merge command issued by `mad_merge`
(mad-plugin.ts line 443): `git merge --no-ff ${branch} --no-edit`, where
`branch` is the worktree session name passed to the tool. -/
def mergeCmd (branch : String) : String :=
  "git merge --no-ff " ++ branch ++ " --no-edit"

/-- Outcome reported by `mad_merge` to its caller. -/
inductive MergeOutcome
  | notFound
  | notDone
  | merged (out : String)
  | conflict (out : String)
  | failed (out : String)
deriving DecidableEq, Repr

/--
Tool `mad_merge` (mad-plugin.ts lines 429-453) as a function of the worktree
session name, whether the worktree directory exists, whether its
`.agent-done` sentinel exists, and the structured result of the git merge
command.  The second component is the list of version-control commands the
tool actually invokes at its merge step (empty when it returns early).
-/
def madMerge (branch : String) (wexists hasDone : Bool) (git : CmdResult) :
    MergeOutcome × List String :=
  if !wexists then (.notFound, [])
  else if !hasDone then (.notDone, [])
  else if git.success then (.merged git.output, [mergeCmd branch])
  else if includes (errOr git) "CONFLICT" then (.conflict (errOr git), [mergeCmd branch])
  else (.failed (errOr git), [mergeCmd branch])

/-- Path separator normalisation `output.replace(/\\/g, "/")` applied to
the git root (mad-plugin.ts line 56). -/
def normSlashes (p : String) : String :=
  ⟨p.data.map fun c => if c = '\\' then '/' else c⟩

/--
Helper `getGitRoot` (mad-plugin.ts lines 51-57): runs
`git rev-parse --show-toplevel` through `runCommand`; on a failed result it
THROWS (`Except.error`), otherwise returns the normalised root path.
-/
def getGitRoot (r : CmdResult) : Except String String :=
  if r.success then .ok (normSlashes r.output)
  else .error ("Not a git repository or git not found: " ++ r.error)

/--
Body of the `execute` of `mad_merge` viewed through exception propagation
(mad-plugin.ts lines 429-453): the body has no try/catch, so a throw from
`getGitRoot` escapes; every later failure comes from `runCommand` and is
returned as a message string.
-/
def madMergeExec (gitRootRes : CmdResult) (wexists hasDone : Bool)
    (git : CmdResult) : Except String String := do
  let _gitRoot ← getGitRoot gitRootRes
  if !wexists then pure "Worktree not found"
  else if !hasDone then pure "Cannot merge: worktree is not marked as done. Complete the task first."
  else if git.success then pure ("Successfully merged!\n\n" ++ git.output)
  else if includes (errOr git) "CONFLICT" then
    pure ("Merge conflict detected!\n\n" ++ errOr git)
  else pure ("Merge failed:\n" ++ errOr git)

/--
Body of the `execute` of `mad_cleanup` viewed through exception propagation
(mad-plugin.ts lines 466-487): `getGitRoot` is called OUTSIDE the
try/catch, so its throw escapes; the `git worktree remove`/`prune` calls
are inside the try/catch, so their failure (`removeRes = .error e`)
becomes a returned message.
-/
def madCleanupExec (gitRootRes : CmdResult) (wexists hasDone force : Bool)
    (removeRes : Except String Unit) : Except String String := do
  let _gitRoot ← getGitRoot gitRootRes
  if !wexists then pure "Worktree not found"
  else if !force && !hasDone then
    pure "Worktree is not marked as done. Use force=true to cleanup anyway."
  else
    match removeRes with
    | .ok _ => pure "Cleaned up worktree"
    | .error e => pure ("Cleanup failed: " ++ e)

/--
Body of the `execute` of `mad_worktree_create` (mad-plugin.ts lines 148-244),
before the surrounding try/catch, as a function of its inputs and the
outcomes of the filesystem/git steps it performs.  `mkdirRes` is the
`mkdirSync` outcome (its failure is caught by an inner try and returned as
a message); `writeTask` is the `.agent-task` `writeFileSync` outcome (its
failure is caught by an inner try and only logged); a `getGitRoot` throw
propagates out of the body.
-/
def madWorktreeCreateBody (branch task : String) (gitRootRes : CmdResult)
    (wexists : Bool) (mkdirRes : Except String Unit)
    (worktreeAdd : CmdResult) (writeTask : Except String Unit) :
    Except String String := do
  if branch.trim = "" then pure "Error: Branch name cannot be empty"
  else if task.trim = "" then pure "Error: Task description cannot be empty"
  else do
    let _gitRoot ← getGitRoot gitRootRes
    if wexists then pure "Worktree already exists"
    else
      match mkdirRes with
      | .error e => pure ("Error creating worktree directory: " ++ e)
      | .ok _ =>
        if !worktreeAdd.success then
          pure ("Error creating git worktree: " ++ worktreeAdd.error)
        else
          match writeTask with
          | _ => pure "Worktree created successfully!"

/--
Full `execute` of `mad_worktree_create` including its outer try/catch
(mad-plugin.ts lines 148-248): any exception from the body is caught and
turned into a returned "Unexpected error" message, so the tool never
throws.
-/
def madWorktreeCreateExec (branch task : String) (gitRootRes : CmdResult)
    (wexists : Bool) (mkdirRes : Except String Unit)
    (worktreeAdd : CmdResult) (writeTask : Except String Unit) :
    Except String String :=
  match madWorktreeCreateBody branch task gitRootRes wexists mkdirRes worktreeAdd writeTask with
  | .ok m => .ok m
  | .error e => .ok ("Unexpected error creating worktree: " ++ e)

/-- The worktree session name derived from a branch name by
`branch.replace(/\//g, "-")` (mad-plugin.ts line 164): every `/` becomes
`-`. -/
def sessionName (branch : String) : String :=
  ⟨branch.data.map fun c => if c = '/' then '-' else c⟩

/-- The worktree directory `join(gitRoot, "worktrees", sessionName)`
computed by `mad_worktree_create` (mad-plugin.ts lines 165-166). -/
def worktreePath (gitRoot branch : String) : String :=
  gitRoot ++ "/worktrees/" ++ sessionName branch

/-- Outcome of the duplicate-worktree check in `mad_worktree_create`. -/
inductive CreateOutcome
  | created
  | alreadyExists
deriving DecidableEq, Repr

/--
The existence-dependent part of `mad_worktree_create`
(mad-plugin.ts lines 164-172): the set of existing worktree directories is
keyed by session name; if the session name already has a directory the
creation is rejected, otherwise the directory is added.
-/
def createWorktree (existing : List String) (branch : String) :
    CreateOutcome × List String :=
  if sessionName branch ∈ existing then (.alreadyExists, existing)
  else (.created, sessionName branch :: existing)

/--
Modelled from the spec: the Glob Matcher of section 4.1 is not present in
`src/` (only the agent-file permission frontmatter and README describe the
interception layer).  `*` matches any run of characters excluding the path
separator `/`; `**` matches across separators (including zero segments);
all other pattern characters are taken literally; matching is anchored
(full-path match).
-/
def globMatchChars : List Char → List Char → Bool
  | [], [] => true
  | [], _ :: _ => false
  | '*' :: '*' :: ps, s =>
    globMatchChars ps s ||
      (match s with
       | [] => false
       | _ :: t => globMatchChars ('*' :: '*' :: ps) t)
  | '*' :: ps, s =>
    globMatchChars ps s ||
      (match s with
       | [] => false
       | c :: t => if c = '/' then false else globMatchChars ('*' :: ps) t)
  | _ :: _, [] => false
  | p :: ps, c :: s => p = c && globMatchChars ps s
termination_by pat s => pat.length + s.length

/-- Modelled from the spec: `matches(path, pattern)` of section 4.1. -/
def globMatch (path pattern : String) : Bool :=
  globMatchChars pattern.data path.data

/-- Modelled from the spec: the `allowedPaths` field of a CapabilityRecord
(section 3) is an "unrestricted" sentinel or a (possibly empty) list of
glob patterns. -/
inductive PathScope
  | unrestricted
  | patterns (pats : List String)
deriving DecidableEq, Repr

/-- Modelled from the spec: the CapabilityRecord of section 3, restricted
to the fields the authorization decision for file actions consults. -/
structure CapabilityRecord where
  canMutate : Bool
  allowedPaths : PathScope
  deniedPaths : List String
deriving DecidableEq, Repr

/-- An authorization decision: Allow or Deny(reason) (spec section 4.2). -/
inductive Decision
  | allow
  | deny (reason : String)
deriving DecidableEq, Repr

/-- The Permission Registry keyed by session id, looked up by an exact
key match (spec sections 3 and 4.2). -/
def lookupRecord (registry : List (String × CapabilityRecord))
    (sessionId : String) : Option CapabilityRecord :=
  (registry.find? fun e => e.1 == sessionId).map Prod.snd

/--
Modelled from the spec: the authorization decision for a mutating file
action (section 4.2), whose implementation is not in `src/`.
1. absent record: Allow (fail-open default);
2. `canMutate = false`: Deny("role is read-only");
3. a `deniedPaths` match: Deny("path explicitly denied");
4. `allowedPaths` restricted, non-empty and unmatched: Deny("path outside
   ownership");
5. otherwise Allow.
-/
def authorize (registry : List (String × CapabilityRecord))
    (sessionId targetPath : String) : Decision :=
  match lookupRecord registry sessionId with
  | none => .allow
  | some r =>
    if r.canMutate = false then .deny "role is read-only"
    else if r.deniedPaths.any (fun pat => globMatch targetPath pat) then
      .deny "path explicitly denied"
    else
      match r.allowedPaths with
      | .unrestricted => .allow
      | .patterns pats =>
        if !pats.isEmpty && !(pats.any fun pat => globMatch targetPath pat) then
          .deny "path outside ownership"
        else .allow

/-- A record for a read-only role: `canMutate = false`. -/
def readonlyRecord : CapabilityRecord :=
  { canMutate := false, allowedPaths := .unrestricted, deniedPaths := [] }

/-- A one-session registry holding a read-only record. -/
def sampleRegistry : List (String × CapabilityRecord) := [("S1", readonlyRecord)]

/-- C1: for every registered agent session whose capability record has
`canMutate = false`, every attempted file-mutating action, at any target
path, is denied by the authorization decision with reason
"role is read-only". -/
theorem authorize_readonly_denies
    (registry : List (String × CapabilityRecord)) (sessionId targetPath : String)
    (r : CapabilityRecord) (hfind : lookupRecord registry sessionId = some r)
    (hmut : r.canMutate = false) :
    authorize registry sessionId targetPath = .deny "role is read-only" := by
  simp [authorize, hfind, hmut]

/-- Witness for C1 at a concrete registry, session id and target path. -/
theorem authorize_readonly_denies_witness :
    lookupRecord sampleRegistry "S1" = some readonlyRecord ∧
    readonlyRecord.canMutate = false ∧
    authorize sampleRegistry "S1" "src/app.ts" = .deny "role is read-only" :=
  ⟨rfl, rfl, authorize_readonly_denies sampleRegistry "S1" "src/app.ts" readonlyRecord rfl rfl⟩

/-- Counterexample to C2 as stated: starting from a fresh workspace, the
sequence `mad_done` then `mad_blocked` leaves both the done and the
blocked sentinel present, because `mad_blocked` clears nothing. -/
theorem sentinel_mutex_counterexample :
    runOps [SentinelOp.done, SentinelOp.blocked] Sentinels.init =
      { done := true, blocked := true, errored := false } ∧
    atMostOneSentinel (runOps [SentinelOp.done, SentinelOp.blocked] Sentinels.init) = false :=
  ⟨rfl, rfl⟩

/-- Each sentinel-writing operation preserves "not both done and errored":
`mad_done` clears errored, `mad_blocked` touches neither, a failing
`mad_test` clears done, a passing `mad_test` touches nothing. -/
theorem apply_preserves_done_errored (op : SentinelOp) (s : Sentinels)
    (h : (s.done && s.errored) = false) :
    ((op.apply s).done && (op.apply s).errored) = false := by
  cases op with
  | done => simp [SentinelOp.apply, markDone]
  | blocked => simpa [SentinelOp.apply, markBlocked] using h
  | test he =>
      cases he
      · simpa [SentinelOp.apply, testSentinels] using h
      · simp [SentinelOp.apply, testSentinels]

/-- Any run of sentinel-writing operations preserves "not both done and
errored". -/
theorem runOps_preserves_done_errored (ops : List SentinelOp) (s : Sentinels)
    (h : (s.done && s.errored) = false) :
    ((runOps ops s).done && (runOps ops s).errored) = false := by
  induction ops generalizing s with
  | nil => simpa [runOps] using h
  | cons op ops ih =>
      have hstep : runOps (op :: ops) s = runOps ops (op.apply s) := rfl
      rw [hstep]
      exact ih (op.apply s) (apply_preserves_done_errored op s h)

/-- C2 (amended): under the sentinel-writing operations `mad_done`,
`mad_blocked` and `mad_test`, the done and errored sentinels are never
simultaneously present in any reachable state; the stronger pairwise
exclusion fails because `mad_blocked` does not clear existing sentinels
and a failing `mad_test` does not clear the blocked sentinel. -/
theorem runOps_done_errored_exclusive (ops : List SentinelOp) :
    ((runOps ops Sentinels.init).done && (runOps ops Sentinels.init).errored) = false :=
  runOps_preserves_done_errored ops Sentinels.init rfl

/-- C3: `mad_status` classifies each workspace by sentinel presence in
priority order done > blocked > errored > in-progress: done wins
regardless of the other sentinels, blocked requires done absent, errored
requires done and blocked absent, and in-progress means no sentinel. -/
theorem classify_priority (s : Sentinels) :
    (classify s = .done ↔ s.done = true) ∧
    (classify s = .blocked ↔ (s.done = false ∧ s.blocked = true)) ∧
    (classify s = .errored ↔ (s.done = false ∧ s.blocked = false ∧ s.errored = true)) ∧
    (classify s = .inProgress ↔ (s.done = false ∧ s.blocked = false ∧ s.errored = false)) := by
  obtain ⟨d, b, e⟩ := s
  cases d <;> cases b <;> cases e <;> simp [classify]

/-- C5: `mad_done` on an existing workspace leaves exactly the done
sentinel (no errored or blocked sentinel), and calling it twice in a row
yields the same post-state as calling it once. -/
theorem madDone_post_idempotent (s : Sentinels) :
    madDone true s = { done := true, blocked := false, errored := false } ∧
    madDone true (madDone true s) = madDone true s := by
  simp [madDone, markDone]

/-- C6: on an existing workspace, a `mad_test` run with at least one
failing check leaves the errored sentinel present and the done sentinel
absent. -/
theorem madTest_failure_sets_errored_clears_done (s : Sentinels) :
    (madTest true true s).errored = true ∧ (madTest true true s).done = false := by
  simp [madTest, testSentinels]

/-- C10: a `mad_test` run in which every executed check passes creates no
sentinel file and removes no sentinel file: the sentinel state, including
any pre-existing errored sentinel, is left exactly as it was. -/
theorem madTest_pass_frame (wexists : Bool) (s : Sentinels) :
    madTest wexists false s = s := by
  cases wexists <;> simp [madTest, testSentinels]

/-- C4: `mad_merge` invokes the version-control merge command exactly when
the workspace exists and carries a done sentinel; on an existing workspace
without a done sentinel it returns the not-done denial (and by the first
part invokes nothing). -/
theorem madMerge_requires_done (branch : String) (wexists hasDone : Bool)
    (git : CmdResult) :
    ((madMerge branch wexists hasDone git).2 =
      if wexists && hasDone then [mergeCmd branch] else []) ∧
    ((madMerge branch wexists hasDone git).1 = .notDone ↔
      (wexists = true ∧ hasDone = false)) := by
  cases wexists
  · simp [madMerge]
  · cases hasDone
    · simp [madMerge]
    · refine ⟨?_, ?_⟩
      · simp only [madMerge]
        split_ifs <;> simp_all
      · simp only [madMerge]
        split_ifs <;> simp_all

/-- C7: every version-control command that `mad_merge` invokes carries the
non-fast-forward flag: its text contains `--no-ff`. -/
theorem madMerge_always_no_ff (branch : String) (wexists hasDone : Bool)
    (git : CmdResult) (c : String)
    (hc : c ∈ (madMerge branch wexists hasDone git).2) :
    ∃ pre post, c.data = pre ++ "--no-ff".data ++ post := by
  have hcmd : c = mergeCmd branch := by
    cases wexists
    · simp [madMerge] at hc
    · cases hasDone
      · simp [madMerge] at hc
      · simp only [madMerge] at hc
        split_ifs at hc <;> simp_all
  refine ⟨"git merge ".data, " ".data ++ branch.data ++ " --no-edit".data, ?_⟩
  have hlit : "git merge --no-ff ".data = "git merge ".data ++ "--no-ff".data ++ " ".data := rfl
  rw [hcmd]
  show (("git merge --no-ff " ++ branch) ++ " --no-edit").data = _
  rw [String.data_append, String.data_append, hlit]
  simp [List.append_assoc]

/-- Witness for C7 at a concrete branch and merge outcome. -/
theorem madMerge_always_no_ff_witness :
    mergeCmd "feat-x" ∈ (madMerge "feat-x" true true ⟨true, "", ""⟩).2 ∧
    ∃ pre post, (mergeCmd "feat-x").data = pre ++ "--no-ff".data ++ post :=
  ⟨by simp [madMerge], madMerge_always_no_ff "feat-x" true true ⟨true, "", ""⟩
    (mergeCmd "feat-x") (by simp [madMerge])⟩

/-- C9: two distinct branch names that agree after replacing every `/`
with `-` map to the same worktree directory, so creating a worktree for
the second after the first is rejected as already existing even though
the second branch name is new. -/
theorem createWorktree_collision (b1 b2 g : String) (existing : List String)
    (_hne : b1 ≠ b2) (hsess : sessionName b1 = sessionName b2) :
    worktreePath g b1 = worktreePath g b2 ∧
    (createWorktree (createWorktree existing b1).2 b2).1 = .alreadyExists := by
  refine ⟨by simp [worktreePath, hsess], ?_⟩
  have hmem : sessionName b2 ∈ (createWorktree existing b1).2 := by
    rw [← hsess]
    by_cases hin : sessionName b1 ∈ existing
    · simp [createWorktree, hin]
    · simp [createWorktree, hin]
  revert hmem
  generalize (createWorktree existing b1).2 = l
  intro hmem
  simp [createWorktree, hmem]

/-- Witness for C9 at the concrete branch pair `feat/x` and `feat-x`. -/
theorem createWorktree_collision_witness :
    "feat/x" ≠ "feat-x" ∧
    sessionName "feat/x" = sessionName "feat-x" ∧
    (worktreePath "/repo" "feat/x" = worktreePath "/repo" "feat-x" ∧
      (createWorktree (createWorktree [] "feat/x").2 "feat-x").1 = .alreadyExists) :=
  ⟨by decide, by decide,
    createWorktree_collision "feat/x" "feat-x" "/repo" [] (by decide) (by decide)⟩

/-- An operation reports a structured result when its body returns
normally (`Except.ok`); `Except.error` models an exception escaping the
`execute` of the tool. -/
def structured (e : Except String String) : Bool :=
  match e with
  | .ok _ => true
  | .error _ => false

/-- A failed `git rev-parse --show-toplevel` result (not a git repository). -/
def gitRootFail : CmdResult :=
  { success := false, output := "", error := "fatal: not a git repository" }

/-- A successful git command result. -/
def gitOk : CmdResult := { success := true, output := "/repo", error := "" }

/-- Counterexample to C8 as stated: when the git-root query fails,
`mad_merge` and `mad_cleanup` propagate the `getGitRoot` exception instead
of returning a structured result, because that call sits outside their
try/catch. -/
theorem vcs_exec_exception_counterexample :
    structured (madMergeExec gitRootFail true true gitOk) = false ∧
    structured (madCleanupExec gitRootFail true true false (.ok ())) = false :=
  ⟨rfl, rfl⟩

/-- C8 (amended): `mad_worktree_create` reports every outcome, including
git failures, as a structured result; `mad_merge` and `mad_cleanup` report
every outcome of the underlying merge/remove commands as a structured
result provided the initial git-root query succeeds (when that query
fails, they propagate an exception). -/
theorem vcs_exec_structured (branch task : String)
    (grrCreate grr : CmdResult) (wexistsC wexists hasDone force : Bool)
    (mkdirRes writeTask removeRes : Except String Unit)
    (worktreeAdd git : CmdResult) (h : grr.success = true) :
    structured (madWorktreeCreateExec branch task grrCreate wexistsC mkdirRes
      worktreeAdd writeTask) = true ∧
    structured (madMergeExec grr wexists hasDone git) = true ∧
    structured (madCleanupExec grr wexists hasDone force removeRes) = true := by
  refine ⟨?_, ?_, ?_⟩
  · cases hbody : madWorktreeCreateBody branch task grrCreate wexistsC mkdirRes
      worktreeAdd writeTask with
    | ok m => simp [madWorktreeCreateExec, hbody, structured]
    | error e => simp [madWorktreeCreateExec, hbody, structured]
  · simp only [madMergeExec, getGitRoot, h, if_true]
    split_ifs <;> rfl
  · simp only [madCleanupExec, getGitRoot, h, if_true]
    split_ifs <;> cases removeRes <;> rfl

/-- Witness for C8 (amended) at concrete inputs, including a failing merge
command and a failing remove command, with a successful git-root query. -/
theorem vcs_exec_structured_witness :
    gitOk.success = true ∧
    (structured (madWorktreeCreateExec "feat/x" "task" gitRootFail false (.ok ())
      gitOk (.ok ())) = true ∧
    structured (madMergeExec gitOk true true
      { success := false, output := "", error := "CONFLICT (content): merge conflict" }) = true ∧
    structured (madCleanupExec gitOk true false true
      (.error "worktree remove failed")) = true) :=
  ⟨rfl, vcs_exec_structured "feat/x" "task" gitRootFail gitOk false true true true
    (.ok ()) (.ok ()) (.error "worktree remove failed") gitOk
    { success := false, output := "", error := "CONFLICT (content): merge conflict" } rfl⟩

end MAD
